import Mathlib

/-!
Shallow embedding of the waitlist signup-and-analytics pipeline of the
`vannila-vs-skills` repository, and proofs about it.

The embedded code:
* `signup` and `getWaitlistCount` from `src/vanilla-claude/app/actions/signup.ts`;
* the count route handler `GET` from `src/unnamed/part_003`;
* `getSignupsOverTime` and `getDashboardStats` from
  `src/skills-claude/agent/skills/admin-dashboard-expert/SKILL.md` (section 4);
* the rate-limited `login` from the same file (sections 1 and 3);
* the documentation example `submitWaitlist` from `src/unnamed/part_001`
  (the nextjs-14-app-router-expert skill), which checks duplicates with a
  separate `findUnique` before `create`.

Machine conventions: timestamps are `Nat` milliseconds since the epoch; the
persistence layer is a `Db` value holding the rows of the `waitlist` table and
a `reachable` flag (`reachable = false` models every store operation throwing
a connection error, which Prisma surfaces as an error without code `P2002`).
-/

namespace Launchlist

/-- Whitespace characters of the JavaScript regex class `\s` (the ASCII ones
plus NBSP; the remaining Unicode space code points are irrelevant to the
inputs considered here). -/
def isJsWhitespace (c : Char) : Bool :=
  c = ' ' || c = '\t' || c = '\n' || c = '\r' || c = '\x0b' || c = '\x0c' || c = ' '

/-- The character class `[^\s@]` used by the vanilla signup email regex. -/
def isAtomChar (c : Char) : Bool :=
  !(isJsWhitespace c) && c != '@'

/-- Shallow embedding of the test of `/^[^\s@]+@[^\s@]+\.[^\s@]+$/` from
`src/vanilla-claude/app/actions/signup.ts`: the string splits at its first
`@` into a nonempty run of `[^\s@]` characters, an `@`, and a nonempty run of
`[^\s@]` characters containing a `.` that is neither its first nor its last
character (backtracking lets the `[^\s@]+` pieces around the `\.` absorb any
other dots). -/
def emailRegexTest (s : String) : Bool :=
  let cs := s.toList
  let before := cs.takeWhile (fun c => c != '@')
  match cs.dropWhile (fun c => c != '@') with
  | [] => false
  | _ :: after =>
    !before.isEmpty && before.all isAtomChar &&
    !after.isEmpty && after.all isAtomChar &&
    ((after.drop 1).dropLast).contains '.'

/-- JavaScript `String.prototype.trim`: drop `\s` characters from both ends. -/
def jsTrim (s : String) : String :=
  String.mk (((s.toList.dropWhile isJsWhitespace).reverse.dropWhile isJsWhitespace).reverse)

/-- JavaScript `String.prototype.toLowerCase` (character-wise lowering). -/
def jsToLower (s : String) : String :=
  String.mk (s.toList.map Char.toLower)

/-- The sanitization `email.toLowerCase().trim()` applied by both signup
actions before persisting. -/
def sanitizeEmail (s : String) : String :=
  jsTrim (jsToLower s)

/-- The JavaScript coercion `x || null` applied to the optional `source` and
`referrer` fields: the empty string (falsy) becomes `null`. -/
def orNull : Option String → Option String
  | some "" => none
  | some s => some s
  | none => none

/-- One row of the `waitlist` table (Prisma model: `email String @unique`,
optional `source` and `referrer`, `createdAt` set at creation). -/
structure WaitlistEntry where
  email : String
  source : Option String
  referrer : Option String
  createdAt : Nat
deriving DecidableEq, Repr

/-- The persistence layer: the rows of the append-only `waitlist` table plus
a reachability flag. `reachable = false` makes every store operation throw a
connection error (no Prisma error code `P2002`). -/
structure Db where
  rows : List WaitlistEntry
  reachable : Bool
deriving DecidableEq, Repr

/-- The unique constraint check the store performs inside `create`: is the
email already present? -/
def emailTaken (rows : List WaitlistEntry) (e : String) : Bool :=
  rows.any (fun r => r.email == e)

/-- Result type of the vanilla `signup` action: `success` with a message or
`failure` with an error string, mirroring the `SignupResult` union type. -/
inductive SignupResult where
  | success (message : String)
  | failure (error : String)
deriving DecidableEq, Repr

/-- Shallow embedding of `signup` from
`src/vanilla-claude/app/actions/signup.ts`. `email = none` models a missing
form field (`formData.get` returns `null`, so `!email` holds, as it also does
for the empty string). Validation runs the regex on the raw submitted string;
sanitization (lower-case then trim) happens after it, on the value passed to
`prisma.waitlist.create`. The `create` call is a single atomic store
operation: on an unreachable store it throws a non-`P2002` error (caught and
mapped to the transient message), on a uniqueness violation it throws `P2002`
(mapped to the duplicate message), and otherwise it appends the row with
`createdAt := now`. -/
def signup (db : Db) (email : Option String) (source referrer : Option String)
    (now : Nat) : SignupResult × Db :=
  match email with
  | none => (.failure "Email is required", db)
  | some e =>
    if e = "" then (.failure "Email is required", db)
    else if !emailRegexTest e then (.failure "Please enter a valid email address", db)
    else
      let sanitizedEmail := sanitizeEmail e
      if !db.reachable then (.failure "Something went wrong. Please try again.", db)
      else if emailTaken db.rows sanitizedEmail then
        (.failure "You\x27re already on the list!", db)
      else
        (.success "You\x27re on the list!",
          { db with rows := db.rows ++ [⟨sanitizedEmail, orNull source, orNull referrer, now⟩] })

/-- Shallow embedding of `getWaitlistCount` from
`src/vanilla-claude/app/actions/signup.ts`: `prisma.waitlist.count()` with a
`catch` that returns `0` when the store is unreachable. -/
def getWaitlistCount (db : Db) : Nat :=
  if db.reachable then db.rows.length else 0

/-- Shallow embedding of the route handler `GET` from `src/unnamed/part_003`
(`/api/count`): the value of the `count` field of the JSON response; the
`catch` branch responds `{ count: 0 }` when the store is unreachable. -/
def countRouteGET (db : Db) : Nat :=
  if db.reachable then db.rows.length else 0

/-! ### Analytics Aggregator (admin-dashboard-expert SKILL.md, section 4) -/

/-- Milliseconds per day, the factor in `days * 24 * 60 * 60 * 1000`. -/
def msPerDay : Nat := 86400000

/-- The UTC calendar day of a millisecond timestamp, as a day index — the
embedding of the bucketing key `createdAt.toISOString().split('T')[0]`. -/
def isoDay (t : Nat) : Nat := t / msPerDay

/-- One step of the JavaScript reduce `acc[k] = (acc[k] || 0) + 1` over an
object whose keys are non-numeric strings: such objects enumerate in
insertion order, so the embedding is an insertion-ordered association list.
This is also how Prisma `groupBy` buckets rows (one bucket per distinct
value, `null` included). -/
def bumpKey {α : Type} [DecidableEq α] (acc : List (α × Nat)) (k : α) : List (α × Nat) :=
  if acc.any (fun p => p.1 == k) then
    acc.map (fun p => if p.1 = k then (p.1, p.2 + 1) else p)
  else acc ++ [(k, 1)]

/-- Count occurrences of each key, keeping first-seen order. -/
def groupCounts {α : Type} [DecidableEq α] (l : List α) : List (α × Nat) :=
  l.foldl bumpKey []

/-- Insertion step for the embedding of an `orderBy` clause. -/
def insertBy {α : Type} (le : α → α → Bool) (a : α) : List α → List α
  | [] => [a]
  | b :: bs => if le a b then a :: b :: bs else b :: insertBy le a bs

/-- Stable insertion sort, the embedding of `orderBy`. -/
def sortBy {α : Type} (le : α → α → Bool) (l : List α) : List α :=
  l.foldr (insertBy le) []

/-- Shallow embedding of `getSignupsOverTime` from the admin-dashboard-expert
`SKILL.md`: fetch the `createdAt` values at least `now − days·24h`, ordered
ascending, then bucket them by UTC calendar day with the object-reduce. A day
with no signups in the window produces no entry. -/
def getSignupsOverTime (days : Nat) (now : Nat) (rows : List WaitlistEntry) :
    List (Nat × Nat) :=
  let signups := sortBy Nat.ble ((rows.map (·.createdAt)).filter
    (fun t => now - days * msPerDay ≤ t))
  groupCounts (signups.map isoDay)

/-- Midnight of the current day: `new Date(new Date().setHours(0, 0, 0, 0))`,
with the deployment's reference timezone taken as UTC. -/
def startOfToday (now : Nat) : Nat := (now / msPerDay) * msPerDay

/-- The result record of `getDashboardStats`. `sources` keeps the Prisma
shape: a bucket per distinct `source` value (`none` for rows without one),
with its count, ordered descending by count, truncated by `take: 10`. -/
structure DashboardStats where
  total : Nat
  today : Nat
  thisWeek : Nat
  sources : List (Option String × Nat)
  timeline : List (Nat × Nat)
deriving DecidableEq, Repr

/-- Shallow embedding of `getDashboardStats` from the admin-dashboard-expert
`SKILL.md`: total count, count since midnight, count within the trailing
7 days, `groupBy` on `source` ordered descending by count with `take: 10`,
and the 30-day timeline. -/
def getDashboardStats (now : Nat) (rows : List WaitlistEntry) : DashboardStats :=
  { total := rows.length
    today := (rows.filter (fun r => startOfToday now ≤ r.createdAt)).length
    thisWeek := (rows.filter (fun r => now - 7 * msPerDay ≤ r.createdAt)).length
    sources := (sortBy (fun a b => Nat.ble b.2 a.2)
      (groupCounts (rows.map (·.source)))).take 10
    timeline := getSignupsOverTime 30 now rows }

/-- The label rendered for a source bucket (`item.source || 'Direct'` in the
referral chart): absent or empty sources display as the sentinel. -/
def sourceLabel : Option String → String
  | none => "Direct"
  | some "" => "Direct"
  | some s => s

/-- Sum of the counts of a bucket list. -/
def countSum {α : Type} (l : List (α × Nat)) : Nat :=
  (l.map (·.2)).sum

/-! ### Admin Access Guard (admin-dashboard-expert SKILL.md, sections 1, 3) -/

/-- The window of `Ratelimit.slidingWindow(5, '15 m')` in milliseconds. -/
def windowMs : Nat := 15 * 60 * 1000

/-- The attempt threshold of `Ratelimit.slidingWindow(5, '15 m')`. -/
def attemptLimit : Nat := 5

/-- Rate limiter state: the log of `limit()` calls as (identifier, timestamp)
pairs, newest first. The Upstash sliding window is modelled as an exact
sliding-window log over this trace. -/
structure RateState where
  log : List (String × Nat)
deriving DecidableEq, Repr

/-- The number of recorded attempts for `ip` inside the trailing window. -/
def recentAttempts (st : RateState) (ip : String) (now : Nat) : Nat :=
  (st.log.filter (fun p => p.1 == ip && decide (now - windowMs < p.2) &&
    decide (p.2 ≤ now))).length

/-- Shallow embedding of `loginLimiter.limit(ip)`: record the request and
report success exactly when the attempts already inside the window are below
the threshold. Every call is recorded, regardless of what the login attempt
later turns out to be. -/
def limiterLimit (st : RateState) (ip : String) (now : Nat) : Bool × RateState :=
  (decide (recentAttempts st ip now < attemptLimit), ⟨(ip, now) :: st.log⟩)

/-- The configured admin identity (`process.env.ADMIN_USERNAME` /
`process.env.ADMIN_PASSWORD`). -/
structure Env where
  adminUsername : String
  adminPassword : String
deriving DecidableEq, Repr

/-- Result of the `login` server action: the rate-limit early return, the
invalid-credentials return, or a saved iron-session (`isLoggedIn := true`
with the submitted username) followed by the dashboard redirect. -/
inductive LoginResult where
  | rateLimited
  | invalidCredentials
  | loggedIn (username : String)
deriving DecidableEq, Repr

/-- Shallow embedding of the rate-limited `login` action assembled exactly as
the `SKILL.md` instructs: the section-3 wrapper consults `loginLimiter.limit`
first and returns the too-many-attempts error when it fails, and only then
continues with the section-1 (Option B) credential comparison against the
configured admin identity. -/
def login (env : Env) (st : RateState) (username password ip : String) (now : Nat) :
    LoginResult × RateState :=
  let limited := limiterLimit st ip now
  if !limited.1 then (.rateLimited, limited.2)
  else if username == env.adminUsername && password == env.adminPassword then
    (.loggedIn username, limited.2)
  else (.invalidCredentials, limited.2)

/-! ### Concurrent submissions

A `signup` call performs exactly one store operation (the atomic
`create`), so an arbitrary interleaving of N concurrent calls is some
sequential order of their `create`s; `runMany` executes such an order. The
documentation example `submitWaitlist` of `src/unnamed/part_001` instead
performs two store operations (`findUnique`, then `create`), so its
interleavings are modelled with an explicit per-client small-step program and
a schedule. -/

/-- Run a sequence of `signup` calls (one atomic store operation each),
threading the store; the attribution fields and timestamp are shared. -/
def runMany (db : Db) (emails : List (Option String)) (source referrer : Option String)
    (now : Nat) : List SignupResult × Db :=
  match emails with
  | [] => ([], db)
  | e :: rest =>
    let first := signup db e source referrer now
    let later := runMany first.2 rest source referrer now
    (first.1 :: later.1, later.2)

/-- Control point of one client running the `submitWaitlist` example of
`src/unnamed/part_001` (validation already passed): before its `findUnique`,
between `findUnique` and `create` (remembering what the read returned), or
returned. -/
inductive P1State where
  | start
  | checked (found : Bool)
  | done (r : SignupResult)
deriving DecidableEq, Repr

/-- One atomic store step of a `src/unnamed/part_001` client submitting
`email`. From `start`, run `findUnique`. From `checked true`, return the
already-on-the-waitlist error without writing. From `checked false`, run
`create`: if another client inserted the email meanwhile the store throws the
uniqueness violation, and the example's `catch` (which has no `P2002` branch)
returns the generic something-went-wrong error; otherwise insert and return
success. -/
def p1Step (email : String) (st : P1State) (store : List String) :
    P1State × List String :=
  match st with
  | .start => (.checked (store.contains email), store)
  | .checked true => (.done (.failure "You\x27re already on the waitlist!"), store)
  | .checked false =>
    if store.contains email then
      (.done (.failure "Something went wrong. Please try again."), store)
    else (.done (.success "Successfully joined!"), email :: store)
  | .done r => (.done r, store)

/-- Run a schedule (a list of client indices) over clients all submitting
`email` with the `src/unnamed/part_001` logic; each schedule entry lets that
client take its next atomic store step. -/
def p1Run (email : String) (clients : List P1State) (store : List String) :
    List Nat → List P1State × List String
  | [] => (clients, store)
  | i :: sched =>
    let stepped := p1Step email (clients.getD i .start) store
    p1Run email (clients.set i stepped.1) stepped.2 sched

/-! ### Concrete inputs used to instantiate the theorems -/

/-- A configured admin identity. -/
def demoEnv : Env := ⟨"admin", "hunter2"⟩

/-- The limiter state after five login attempts with a wrong password from
the same client, at one-second intervals. -/
def failedFiveState : RateState :=
  (List.range 5).foldl
    (fun st i => (login demoEnv st "admin" "wrong" "7.7.7.7" (1000 * (i + 1))).2) ⟨[]⟩

/-- Eleven rows with eleven distinct attribution sources. -/
def elevenSourceRows : List WaitlistEntry :=
  [⟨"e0@x.com", some "s0", none, 0⟩, ⟨"e1@x.com", some "s1", none, 0⟩,
   ⟨"e2@x.com", some "s2", none, 0⟩, ⟨"e3@x.com", some "s3", none, 0⟩,
   ⟨"e4@x.com", some "s4", none, 0⟩, ⟨"e5@x.com", some "s5", none, 0⟩,
   ⟨"e6@x.com", some "s6", none, 0⟩, ⟨"e7@x.com", some "s7", none, 0⟩,
   ⟨"e8@x.com", some "s8", none, 0⟩, ⟨"e9@x.com", some "s9", none, 0⟩,
   ⟨"e10@x.com", some "s10", none, 0⟩]

/-! ### Helper lemmas -/

theorem emailRegexTest_ne_empty {e : String} (h : emailRegexTest e = true) : e ≠ "" := by
  intro he
  rw [he] at h
  exact absurd h (by decide)

theorem signup_of_valid (db : Db) (e : String) (src ref : Option String) (now : Nat)
    (hv : emailRegexTest e = true) (hr : db.reachable = true) :
    signup db (some e) src ref now =
      if emailTaken db.rows (sanitizeEmail e) then
        (.failure "You\x27re already on the list!", db)
      else
        (.success "You\x27re on the list!",
          { db with rows := db.rows ++ [⟨sanitizeEmail e, orNull src, orNull ref, now⟩] }) := by
  simp [signup, emailRegexTest_ne_empty hv, hv, hr]

theorem signup_of_unreachable (db : Db) (e : String) (src ref : Option String) (now : Nat)
    (hv : emailRegexTest e = true) (hr : db.reachable = false) :
    signup db (some e) src ref now =
      (.failure "Something went wrong. Please try again.", db) := by
  simp [signup, emailRegexTest_ne_empty hv, hv, hr]

theorem emailTaken_append_self (rows : List WaitlistEntry) (e : String)
    (src ref : Option String) (now : Nat) :
    emailTaken (rows ++ [⟨e, src, ref, now⟩]) e = true := by
  simp [emailTaken]

theorem runMany_all_duplicates (db : Db) (e : String) (src ref : Option String) (now : Nat)
    (hv : emailRegexTest e = true) (hr : db.reachable = true)
    (ht : emailTaken db.rows (sanitizeEmail e) = true) :
    ∀ n, runMany db (List.replicate n (some e)) src ref now =
      (List.replicate n (.failure "You\x27re already on the list!"), db) := by
  intro n
  induction n with
  | zero => simp [runMany]
  | succ k ih =>
    rw [List.replicate_succ, runMany, signup_of_valid db e src ref now hv hr, if_pos ht]
    rw [List.replicate_succ]
    simp [ih]

theorem map_incr_of_no_key {α : Type} [DecidableEq α] (acc : List (α × Nat)) (k : α)
    (h : k ∉ acc.map Prod.fst) :
    acc.map (fun p => if p.1 = k then (p.1, p.2 + 1) else p) = acc := by
  induction acc with
  | nil => rfl
  | cons p rest ih =>
    simp only [List.map_cons, List.mem_cons, List.map] at h ⊢
    have h1 : p.1 ≠ k := fun hk => h (Or.inl hk.symm)
    rw [if_neg h1, ih (fun hk => h (Or.inr hk))]

theorem countSum_cons {α : Type} (p : α × Nat) (l : List (α × Nat)) :
    countSum (p :: l) = p.2 + countSum l := by
  simp [countSum]

theorem map_fst_bumpKey {α : Type} [DecidableEq α] (acc : List (α × Nat)) (k : α) :
    (bumpKey acc k).map Prod.fst =
      if acc.any (fun p => p.1 == k) then acc.map Prod.fst
      else acc.map Prod.fst ++ [k] := by
  unfold bumpKey
  split
  · rw [List.map_map]
    refine List.map_congr_left ?_
    intro p _
    by_cases hp : p.1 = k <;> simp [hp]
  · simp

theorem nodup_map_fst_bumpKey {α : Type} [DecidableEq α] (acc : List (α × Nat)) (k : α)
    (h : (acc.map Prod.fst).Nodup) : ((bumpKey acc k).map Prod.fst).Nodup := by
  rw [map_fst_bumpKey]
  by_cases hany : (acc.any fun p => p.1 == k) = true
  · rw [if_pos hany]
    exact h
  · rw [if_neg hany, List.nodup_append]
    refine ⟨h, List.nodup_singleton k, List.disjoint_singleton.mpr ?_⟩
    intro hk
    obtain ⟨p, hp, hpk⟩ := List.mem_map.mp hk
    exact hany (List.any_eq_true.mpr ⟨p, hp, by simp [hpk]⟩)

theorem countSum_map_incr {α : Type} [DecidableEq α] (acc : List (α × Nat)) (k : α)
    (hnd : (acc.map Prod.fst).Nodup) (hmem : acc.any (fun p => p.1 == k) = true) :
    countSum (acc.map (fun p => if p.1 = k then (p.1, p.2 + 1) else p)) =
      countSum acc + 1 := by
  induction acc with
  | nil => simp at hmem
  | cons p rest ih =>
    simp only [List.map_cons, List.nodup_cons] at hnd
    by_cases hp : p.1 = k
    · have hno : k ∉ rest.map Prod.fst := hp ▸ hnd.1
      simp only [List.map_cons, if_pos hp, map_incr_of_no_key rest k hno]
      rw [countSum_cons, countSum_cons]
      omega
    · have hmem' : rest.any (fun p => p.1 == k) = true := by
        rcases List.any_eq_true.mp hmem with ⟨q, hq, hqk⟩
        rcases List.mem_cons.mp hq with hq1 | hq2
        · exact absurd (hq1 ▸ beq_iff_eq.mp hqk) hp
        · exact List.any_eq_true.mpr ⟨q, hq2, hqk⟩
      simp only [List.map_cons, if_neg hp]
      rw [countSum_cons, countSum_cons, ih hnd.2 hmem']
      omega

theorem countSum_bumpKey {α : Type} [DecidableEq α] (acc : List (α × Nat)) (k : α)
    (hnd : (acc.map Prod.fst).Nodup) : countSum (bumpKey acc k) = countSum acc + 1 := by
  unfold bumpKey
  split
  · exact countSum_map_incr acc k hnd (by assumption)
  · simp [countSum]

theorem groupCounts_invariant {α : Type} [DecidableEq α] :
    ∀ (l : List α) (acc : List (α × Nat)), (acc.map Prod.fst).Nodup →
      ((l.foldl bumpKey acc).map Prod.fst).Nodup ∧
        countSum (l.foldl bumpKey acc) = countSum acc + l.length := by
  intro l
  induction l with
  | nil => intro acc h; simpa using h
  | cons a t ih =>
    intro acc h
    rw [List.foldl_cons]
    obtain ⟨hn, hs⟩ := ih (bumpKey acc a) (nodup_map_fst_bumpKey acc a h)
    refine ⟨hn, ?_⟩
    rw [hs, countSum_bumpKey acc a h, List.length_cons]
    omega

theorem countSum_groupCounts {α : Type} [DecidableEq α] (l : List α) :
    countSum (groupCounts l) = l.length := by
  have h := (groupCounts_invariant l [] (by simp)).2
  simpa [groupCounts, countSum] using h

theorem insertBy_perm {α : Type} (le : α → α → Bool) (a : α) :
    ∀ l : List α, (insertBy le a l).Perm (a :: l) := by
  intro l
  induction l with
  | nil => exact List.Perm.refl _
  | cons b bs ih =>
    unfold insertBy
    split
    · exact List.Perm.refl _
    · exact (ih.cons b).trans (List.Perm.swap a b bs)

theorem sortBy_perm {α : Type} (le : α → α → Bool) :
    ∀ l : List α, (sortBy le l).Perm l := by
  intro l
  induction l with
  | nil => exact List.Perm.refl _
  | cons a t ih =>
    have : sortBy le (a :: t) = insertBy le a (sortBy le t) := rfl
    rw [this]
    exact (insertBy_perm le a (sortBy le t)).trans (ih.cons a)

theorem countSum_of_perm {α : Type} {l l' : List (α × Nat)} (h : l.Perm l') :
    countSum l = countSum l' := by
  unfold countSum
  exact (h.map _).sum_eq

/-! ### Claim theorems -/

/-- Claim C1, counterexample: submitting the spec's example input
`"Test@Example.com "` (trailing space) does not succeed — the regex runs on
the raw submitted string before any sanitization, and `\s` excludes the
space, so the action returns the invalid-address error and creates no
record. -/
theorem signup_trailing_space_rejected :
    signup ⟨[], true⟩ (some "Test@Example.com ") none none 0 =
      (.failure "Please enter a valid email address", ⟨[], true⟩) := by
  decide

/-- Claim C1, amended: sanitization (lower-case, trim) happens after the
syntax validation (which runs on the raw string) but before both the
uniqueness check and the persisted value: for any raw email accepted by the
regex, the duplicate check compares `sanitizeEmail e` against the stored
rows, a fresh insert persists exactly `sanitizeEmail e`, and the total grows
by 1. -/
theorem signup_normalizes_after_validation :
    ∀ (db : Db) (e : String) (src ref : Option String) (now : Nat),
      db.reachable = true → emailRegexTest e = true →
      (emailTaken db.rows (sanitizeEmail e) = false →
        signup db (some e) src ref now =
          (.success "You\x27re on the list!",
            { db with rows := db.rows ++ [⟨sanitizeEmail e, orNull src, orNull ref, now⟩] }) ∧
        getWaitlistCount (signup db (some e) src ref now).2 = getWaitlistCount db + 1) ∧
      (emailTaken db.rows (sanitizeEmail e) = true →
        signup db (some e) src ref now = (.failure "You\x27re already on the list!", db)) := by
  intro db e src ref now hr hv
  constructor
  · intro ht
    rw [signup_of_valid db e src ref now hv hr, if_neg (by simp [ht])]
    refine ⟨rfl, ?_⟩
    simp [getWaitlistCount, hr]
  · intro ht
    rw [signup_of_valid db e src ref now hv hr, if_pos ht]

/-- Witness for the amended C1 at the spec's example without the trailing
space: `"Test@Example.com"` is accepted, stored as `"test@example.com"`, and
the count goes from 0 to 1. -/
theorem signup_normalizes_after_validation_witness :
    (⟨[], true⟩ : Db).reachable = true ∧
    emailRegexTest "Test@Example.com" = true ∧
    emailTaken (⟨[], true⟩ : Db).rows (sanitizeEmail "Test@Example.com") = false ∧
    signup ⟨[], true⟩ (some "Test@Example.com") none none 0 =
      (.success "You\x27re on the list!", ⟨[⟨"test@example.com", none, none, 0⟩], true⟩) ∧
    getWaitlistCount (signup ⟨[], true⟩ (some "Test@Example.com") none none 0).2 = 1 := by
  have h := (signup_normalizes_after_validation ⟨[], true⟩ "Test@Example.com" none none 0
    rfl (by decide)).1 (by decide)
  refine ⟨rfl, by decide, by decide, ?_, ?_⟩
  · rw [h.1]; decide
  · rw [h.2]; decide

/-- Claim C2, counterexample: a whitespace variant of an already-registered
email is in the same normalization class, yet the second submission returns
the invalid-address error, not the duplicate outcome, because validation runs
before trimming. -/
theorem whitespace_variant_rejected_not_duplicate :
    sanitizeEmail "a@x.com " = sanitizeEmail "a@x.com" ∧
    (signup ⟨[], true⟩ (some "a@x.com") none none 0).1 = .success "You\x27re on the list!" ∧
    (signup (signup ⟨[], true⟩ (some "a@x.com") none none 0).2
        (some "a@x.com ") none none 1).1 =
      .failure "Please enter a valid email address" := by
  decide

/-- Claim C2, amended: for valid emails, submitting `e` and then any
variant `e'` of the same normalization class that itself passes the raw
syntax check (case variants do; whitespace variants do not) yields success
then the duplicate error, with exactly one stored record for the normalized
value; in general the duplicate error occurs exactly when the store is
reachable and reports the uniqueness violation, and an unreachable store
yields the transient error instead. -/
theorem signup_twice_same_class :
    (∀ (e e' : String) (src ref : Option String) (now now' : Nat),
      emailRegexTest e = true → emailRegexTest e' = true →
      sanitizeEmail e' = sanitizeEmail e →
      (signup ⟨[], true⟩ (some e) src ref now).1 = .success "You\x27re on the list!" ∧
      (signup (signup ⟨[], true⟩ (some e) src ref now).2 (some e') src ref now').1 =
        .failure "You\x27re already on the list!" ∧
      ((signup (signup ⟨[], true⟩ (some e) src ref now).2 (some e') src ref now').2.rows.filter
        (fun r => r.email == sanitizeEmail e)).length = 1) ∧
    (∀ (db : Db) (e : String) (src ref : Option String) (now : Nat),
      emailRegexTest e = true →
      ((signup db (some e) src ref now).1 = .failure "You\x27re already on the list!" ↔
        db.reachable = true ∧ emailTaken db.rows (sanitizeEmail e) = true) ∧
      (db.reachable = false →
        (signup db (some e) src ref now).1 =
          .failure "Something went wrong. Please try again.")) := by
  constructor
  · intro e e' src ref now now' hv hv' hs
    have h1 : signup ⟨[], true⟩ (some e) src ref now =
        (.success "You\x27re on the list!",
          ⟨[⟨sanitizeEmail e, orNull src, orNull ref, now⟩], true⟩) := by
      rw [signup_of_valid ⟨[], true⟩ e src ref now hv rfl]
      simp [emailTaken]
    have h2 : signup (⟨[⟨sanitizeEmail e, orNull src, orNull ref, now⟩], true⟩ : Db)
        (some e') src ref now' =
        (.failure "You\x27re already on the list!",
          ⟨[⟨sanitizeEmail e, orNull src, orNull ref, now⟩], true⟩) := by
      rw [signup_of_valid _ e' src ref now' hv' rfl, hs, if_pos (by simp [emailTaken])]
    rw [h1]
    refine ⟨rfl, ?_, ?_⟩
    · rw [h2]
    · rw [h2]
      simp
  · intro db e src ref now hv
    cases hr : db.reachable with
    | false =>
      rw [signup_of_unreachable db e src ref now hv hr]
      refine ⟨⟨fun h => absurd (SignupResult.failure.inj h) (by decide),
        fun h => absurd h.1 (by decide)⟩, fun _ => rfl⟩
    | true =>
      rw [signup_of_valid db e src ref now hv hr]
      by_cases ht : emailTaken db.rows (sanitizeEmail e) = true
      · rw [if_pos ht]
        exact ⟨⟨fun _ => ⟨rfl, ht⟩, fun _ => rfl⟩, fun hf => absurd hf (by decide)⟩
      · have ht' : emailTaken db.rows (sanitizeEmail e) = false := by
          cases h : emailTaken db.rows (sanitizeEmail e)
          · rfl
          · exact absurd h ht
        rw [if_neg (by simp [ht'])]
        exact ⟨⟨fun h => SignupResult.noConfusion h, fun h => absurd h.2 ht⟩,
          fun hf => absurd hf (by decide)⟩

/-- Witness for the amended C2: `"a@x.com"` then the case variant
`"A@x.com"` gives success then the duplicate error, and the same submission
against an unreachable store gives the transient error. -/
theorem signup_twice_same_class_witness :
    emailRegexTest "a@x.com" = true ∧ emailRegexTest "A@x.com" = true ∧
    sanitizeEmail "A@x.com" = sanitizeEmail "a@x.com" ∧
    (signup ⟨[], true⟩ (some "a@x.com") none none 0).1 = .success "You\x27re on the list!" ∧
    (signup (signup ⟨[], true⟩ (some "a@x.com") none none 0).2
        (some "A@x.com") none none 1).1 = .failure "You\x27re already on the list!" ∧
    (signup ⟨[⟨"a@x.com", none, none, 0⟩], false⟩ (some "a@x.com") none none 1).1 =
      .failure "Something went wrong. Please try again." := by
  obtain ⟨h1, h2, -⟩ := signup_twice_same_class.1 "a@x.com" "A@x.com" none none 0 1
    (by decide) (by decide) (by decide)
  exact ⟨by decide, by decide, by decide, h1, h2,
    (signup_twice_same_class.2 ⟨[⟨"a@x.com", none, none, 0⟩], false⟩ "a@x.com" none none 1
      (by decide)).2 rfl⟩

/-- Claim C3: evaluation at the failing situation. When the store is
unreachable, both the public count action and the count route respond with
`0`, which is exactly what they respond for an empty reachable store — the
caller cannot distinguish an empty waitlist from a failed fetch, contrary to
the claim's required explicit error. -/
theorem count_queries_return_zero_when_unreachable :
    getWaitlistCount ⟨[⟨"a@x.com", none, none, 0⟩], false⟩ = 0 ∧
    countRouteGET ⟨[⟨"a@x.com", none, none, 0⟩], false⟩ = 0 ∧
    getWaitlistCount ⟨[], true⟩ = 0 ∧ countRouteGET ⟨[], true⟩ = 0 :=
  ⟨rfl, rfl, rfl, rfl⟩

/-- Claim C4: evaluation at the failing inputs. `getSignupsOverTime 30`
produces one entry per day that has at least one signup and nothing else: on
an empty record set the timeline is empty (0 entries, not 30), and with one
signup it has a single entry — zero-signup days are omitted, contrary to the
claim's 30 gap-free entries. -/
theorem timeline_omits_zero_days :
    getSignupsOverTime 30 (30 * msPerDay) [] = [] ∧
    getSignupsOverTime 30 (100 * msPerDay) [⟨"a@x.com", none, none, 99 * msPerDay⟩] =
      [(99, 1)] ∧
    (getSignupsOverTime 30 (100 * msPerDay) [⟨"a@x.com", none, none, 99 * msPerDay⟩]).length
      = 1 := by
  decide

/-- Claim C5, counterexample: with eleven distinct attribution sources the
`take: 10` truncation drops a bucket, so the `bySource` counts sum to 10
while `total` is 11. -/
theorem bySource_sum_undercounts_beyond_ten_buckets :
    countSum (getDashboardStats 0 elevenSourceRows).sources = 10 ∧
    (getDashboardStats 0 elevenSourceRows).total = 11 := by
  decide

/-- Claim C5, amended: the `bySource` counts sum to `total` whenever the
records span at most 10 distinct source buckets (the `null` bucket counted as
one); beyond that, `take: 10` keeps only the ten largest buckets and the sum
falls short of `total`. -/
theorem bySource_sums_to_total_of_few_buckets :
    ∀ (now : Nat) (rows : List WaitlistEntry),
      (groupCounts (rows.map (·.source))).length ≤ 10 →
      countSum (getDashboardStats now rows).sources =
        (getDashboardStats now rows).total := by
  intro now rows h
  have hperm := sortBy_perm (fun a b => Nat.ble b.2 a.2) (groupCounts (rows.map (·.source)))
  have hlen : (sortBy (fun a b => Nat.ble b.2 a.2)
      (groupCounts (rows.map (·.source)))).length ≤ 10 := by
    rw [hperm.length_eq]
    exact h
  dsimp only [getDashboardStats]
  rw [List.take_of_length_le hlen, countSum_of_perm hperm, countSum_groupCounts,
    List.length_map]

/-- Witness for the amended C5 on a single-bucket record set. -/
theorem bySource_sums_to_total_of_few_buckets_witness :
    (groupCounts (([⟨"e0@x.com", some "s0", none, 0⟩] : List WaitlistEntry).map
      (·.source))).length ≤ 10 ∧
    countSum (getDashboardStats 0 [⟨"e0@x.com", some "s0", none, 0⟩]).sources =
      (getDashboardStats 0 [⟨"e0@x.com", some "s0", none, 0⟩]).total :=
  ⟨by decide, bySource_sums_to_total_of_few_buckets 0 [⟨"e0@x.com", some "s0", none, 0⟩]
    (by decide)⟩

/-- Claim C6: once the limiter has at least `attemptLimit` recorded attempts
for a client inside the trailing window, the next `login` call returns the
rate-limited error whatever the submitted credentials are — the limiter check
short-circuits the action before the credential comparison, so even the
correct username and password cannot influence the outcome. -/
theorem login_rateLimited_before_credentials :
    ∀ (env : Env) (st : RateState) (username password ip : String) (now : Nat),
      attemptLimit ≤ recentAttempts st ip now →
      (login env st username password ip now).1 = .rateLimited := by
  intro env st u p ip now h
  have hd : decide (recentAttempts st ip now < attemptLimit) = false := by
    simp only [decide_eq_false_iff_not, not_lt]
    exact h
  simp [login, limiterLimit, hd]

/-- Witness for C6: after five failed attempts inside the window, the sixth
call with the correct credentials of `demoEnv` is rate limited. -/
theorem login_rateLimited_before_credentials_witness :
    attemptLimit ≤ recentAttempts failedFiveState "7.7.7.7" 6000 ∧
    (login demoEnv failedFiveState "admin" "hunter2" "7.7.7.7" 6000).1 = .rateLimited :=
  ⟨by decide, login_rateLimited_before_credentials demoEnv failedFiveState
    "admin" "hunter2" "7.7.7.7" 6000 (by decide)⟩

/-- Claim C7, counterexample: a single fully successful authentication from a
fresh client leaves one recorded attempt in the limiter window, not zero —
the counter is incremented by the `limit()` call before the credential check,
and nothing resets it on success. -/
theorem successful_login_still_counted :
    (login demoEnv ⟨[]⟩ "admin" "hunter2" "9.9.9.9" 1000).1 = .loggedIn "admin" ∧
    recentAttempts (login demoEnv ⟨[]⟩ "admin" "hunter2" "9.9.9.9" 1000).2 "9.9.9.9" 1000
      = 1 := by
  decide

/-- Claim C7, amended: every `login` call — rate-limited, failed, or
successful — appends exactly one attempt for the client to the limiter log,
and no call removes or resets entries; attempts only stop counting when they
age out of the sliding window. -/
theorem login_always_logs_attempt :
    ∀ (env : Env) (st : RateState) (username password ip : String) (now : Nat),
      (login env st username password ip now).2.log = (ip, now) :: st.log := by
  intro env st u p ip now
  dsimp only [login, limiterLimit]
  split
  · rfl
  · split <;> rfl

/-- Claim C8: for every raw string the regex rejects (the empty string
included) and for a missing field, `signup` returns one of the two
validation errors and leaves the store untouched — no write of any kind
reaches the persistence layer. -/
theorem signup_invalid_email_no_write :
    ∀ (db : Db) (s : String) (src ref : Option String) (now : Nat),
      emailRegexTest s = false →
      ((signup db (some s) src ref now).1 = .failure "Email is required" ∨
        (signup db (some s) src ref now).1 = .failure "Please enter a valid email address") ∧
      (signup db (some s) src ref now).2 = db ∧
      signup db none src ref now = (.failure "Email is required", db) := by
  intro db s src ref now hv
  by_cases hs : s = ""
  · subst hs
    exact ⟨Or.inl rfl, rfl, rfl⟩
  · refine ⟨Or.inr ?_, ?_, rfl⟩ <;> simp [signup, hs, hv]

/-- Witness for C8 at the spec's example `"not-an-email"`. -/
theorem signup_invalid_email_no_write_witness :
    emailRegexTest "not-an-email" = false ∧
    ((signup ⟨[], true⟩ (some "not-an-email") none none 0).1 =
        .failure "Email is required" ∨
      (signup ⟨[], true⟩ (some "not-an-email") none none 0).1 =
        .failure "Please enter a valid email address") ∧
    (signup ⟨[], true⟩ (some "not-an-email") none none 0).2 = ⟨[], true⟩ :=
  ⟨by decide,
    (signup_invalid_email_no_write ⟨[], true⟩ "not-an-email" none none 0 (by decide)).1,
    (signup_invalid_email_no_write ⟨[], true⟩ "not-an-email" none none 0 (by decide)).2.1⟩

/-- Claim C9, counterexample: the documentation example `submitWaitlist` of
`src/unnamed/part_001` checks duplicates with `findUnique` before `create`
and its `catch` has no `P2002` branch; under the racing schedule where both
clients run `findUnique` before either `create`, the loser gets the generic
transient error, so of two concurrent submissions 1 succeeds but 0 — not
N−1 = 1 — observe the duplicate outcome. -/
theorem part001_race_yields_transient_not_duplicate :
    (p1Run "a@x.com" [.start, .start] [] [0, 1, 0, 1]).1 =
      [.done (.success "Successfully joined!"),
        .done (.failure "Something went wrong. Please try again.")] ∧
    ((p1Run "a@x.com" [.start, .start] [] [0, 1, 0, 1]).1.count
      (.done (.failure "You\x27re already on the waitlist!"))) = 0 := by
  decide

/-- Claim C9, amended: the deployed signup actions perform a single atomic
`create` guarded by the store's uniqueness constraint, so every
sequentialization of N = n+1 concurrent submissions of the same valid email
against an initially empty reachable store yields exactly 1 success and n
duplicate outcomes — never 0 and never N successes; the guarantee does not
extend to the read-then-write example of `src/unnamed/part_001`. -/
theorem concurrent_same_email_one_success :
    ∀ (e : String) (src ref : Option String) (now n : Nat),
      emailRegexTest e = true →
      (runMany ⟨[], true⟩ (List.replicate (n + 1) (some e)) src ref now).1 =
        .success "You\x27re on the list!" ::
          List.replicate n (.failure "You\x27re already on the list!") ∧
      ((runMany ⟨[], true⟩ (List.replicate (n + 1) (some e)) src ref now).1.count
        (.success "You\x27re on the list!")) = 1 ∧
      ((runMany ⟨[], true⟩ (List.replicate (n + 1) (some e)) src ref now).1.count
        (.failure "You\x27re already on the list!")) = n := by
  intro e src ref now n hv
  have hfirst : signup ⟨[], true⟩ (some e) src ref now =
      (.success "You\x27re on the list!",
        ⟨[⟨sanitizeEmail e, orNull src, orNull ref, now⟩], true⟩) := by
    rw [signup_of_valid ⟨[], true⟩ e src ref now hv rfl]
    simp [emailTaken]
  have hrest := runMany_all_duplicates
    ⟨[⟨sanitizeEmail e, orNull src, orNull ref, now⟩], true⟩ e src ref now hv rfl
    (by simp [emailTaken]) n
  have hlist : (runMany ⟨[], true⟩ (List.replicate (n + 1) (some e)) src ref now).1 =
      .success "You\x27re on the list!" ::
        List.replicate n (.failure "You\x27re already on the list!") := by
    rw [List.replicate_succ, runMany, hfirst, hrest]
  have hne : ((SignupResult.failure "You\x27re already on the list!") ==
      (SignupResult.success "You\x27re on the list!")) = false := by decide
  have heq : ((SignupResult.failure "You\x27re already on the list!") ==
      (SignupResult.failure "You\x27re already on the list!")) = true := by decide
  have hne' : ((SignupResult.success "You\x27re on the list!") ==
      (SignupResult.failure "You\x27re already on the list!")) = false := by decide
  have heq' : ((SignupResult.success "You\x27re on the list!") ==
      (SignupResult.success "You\x27re on the list!")) = true := by decide
  refine ⟨hlist, ?_, ?_⟩ <;>
    simp [hlist, List.count_cons, List.count_replicate, hne, heq, hne', heq']

/-- Witness for the amended C9 with three concurrent submissions. -/
theorem concurrent_same_email_one_success_witness :
    emailRegexTest "a@x.com" = true ∧
    (runMany ⟨[], true⟩ (List.replicate (2 + 1) (some "a@x.com")) none none 5).1 =
      .success "You\x27re on the list!" ::
        List.replicate 2 (.failure "You\x27re already on the list!") :=
  ⟨by decide, (concurrent_same_email_one_success "a@x.com" none none 5 2 (by decide)).1⟩

/-- Claim C10: submitting an empty-string `source` or `referrer` is
indistinguishable from omitting it — the `|| null` coercion stores `none`
either way, so the whole action result coincides, and such records fall into
the `none` bucket that the dashboard labels with the `"Direct"` sentinel. -/
theorem empty_source_stored_as_null :
    ∀ (db : Db) (email : Option String) (src ref : Option String) (now : Nat),
      signup db email (some "") ref now = signup db email none ref now ∧
      signup db email src (some "") now = signup db email src none now ∧
      orNull (some "") = none ∧
      sourceLabel (orNull (some "")) = sourceLabel none := by
  intro db email src ref now
  refine ⟨?_, ?_, rfl, rfl⟩ <;> cases email <;> rfl

end Launchlist
